import Mathlib

/-!
Shallow embedding of the Stripe → WooCommerce integration bridge
(`src/server.js`).  The reconciliation logic is translated function by
function; the two external systems (the Stripe API and the WooCommerce
REST API) are modelled as explicit state records, and every outbound
write call (POST/PUT) is recorded in a trace so that claims counting
write calls can be stated.  Errors thrown in the JavaScript become an
explicit error type; transport errors of the external systems are out
of scope (the model backend always answers).
-/

namespace StripeWoo

/-- A key/value metadata entry (WooCommerce `meta_data` element). -/
structure MetaEntry where
  key : String
  value : String
deriving Repr, DecidableEq

/-- Stripe address sub-object of `customer_details`; every field may be
absent (`null`/`undefined` in JS). -/
structure Address where
  line1 : Option String
  line2 : Option String
  city : Option String
  state : Option String
  postal_code : Option String
  country : Option String
deriving Repr, DecidableEq

/-- Stripe `customer_details`.  A JS value that is `null`, `undefined`
or the empty string is modelled by `none` / `some ""`; the helper
`optStr` reproduces the `x || ''` defaulting idiom. -/
structure CustomerDetails where
  name : Option String
  email : Option String
  phone : Option String
  address : Option Address
deriving Repr, DecidableEq

/-- `x || ''` on an optional string field. -/
def optStr (o : Option String) : String := o.getD ""

/-- `name.split(' ')[0]` (empty input splits to `[""]`, so the JS
truthiness guard does not change the result). -/
def nameFirst (name : Option String) : String :=
  ((optStr name).splitOn " ").headD ""

/-- `name.split(' ').slice(1).join(' ')`. -/
def nameLast (name : Option String) : String :=
  " ".intercalate (((optStr name).splitOn " ").drop 1)

/-- `customerDetails.address ? customerDetails.address.f || '' : ''`. -/
def addrField (addr : Option Address) (f : Address → Option String) : String :=
  match addr with
  | none => ""
  | some a => optStr (f a)

/-- A Stripe checkout-session line item: a price id and a quantity. -/
structure StripeLineItem where
  priceId : String
  quantity : Nat
deriving Repr, DecidableEq

/-- A Stripe checkout session (the fields the bridge reads). -/
structure StripeSession where
  id : String
  customer_details : CustomerDetails
  subscription : Option String
deriving Repr, DecidableEq

/-- A Stripe subscription object (the fields the bridge reads). -/
structure StripeSubscription where
  id : String
  status : String
  customer : String
deriving Repr, DecidableEq

/-- A Stripe invoice object (the fields the bridge reads). -/
structure StripeInvoice where
  id : String
  status : String
  subscription : Option String
  customer : String
deriving Repr, DecidableEq

/-- A Stripe customer object (the fields the bridge reads). -/
structure StripeCustomer where
  id : String
  email : String
deriving Repr, DecidableEq

/-- One entry of the static `productMapping` table. -/
structure ProductMapEntry where
  productId : Nat
  isSubscription : Bool
  subscriptionPeriod : Option String
deriving Repr, DecidableEq

/-- The static product mapping table (`src/server.js` lines 35-45). -/
def productMapping (priceId : String) : Option ProductMapEntry :=
  if priceId = "price_123456789" then
    some { productId := 123, isSubscription := true, subscriptionPeriod := some "month" }
  else if priceId = "price_987654321" then
    some { productId := 456, isSubscription := false, subscriptionPeriod := none }
  else
    none

/-- The `statusMap` table inside `updateWooSubscriptionStatus`
(`src/server.js` lines 476-485). -/
def statusMap (s : String) : Option String :=
  if s = "active" then some "active"
  else if s = "past_due" then some "on-hold"
  else if s = "unpaid" then some "on-hold"
  else if s = "canceled" then some "cancelled"
  else if s = "incomplete" then some "pending"
  else if s = "incomplete_expired" then some "cancelled"
  else if s = "trialing" then some "active"
  else if s = "paused" then some "on-hold"
  else none

/-- `statusMap[stripeStatus] || 'on-hold'` (every mapped value is a
non-empty string, hence truthy, so `||` is exactly the default on a
missing key). -/
def translateStripeStatus (s : String) : String :=
  (statusMap s).getD "on-hold"

/-- The error values thrown by the bridge (the spec's taxonomy, §7);
each constructor corresponds to one `throw new Error(...)` site. -/
inductive IntegrationError where
  /-- `'Customer email is required'` (line 212). -/
  | validationError
  /-- `'No product mapping found for Stripe price ID: <id>'` (line 286). -/
  | unmappedProductError (priceId : String)
  /-- `'No WooCommerce customer found for email: <email>'`
  (lines 123, 147, 183). -/
  | customerNotFoundError (email : String)
  /-- A failed Stripe read (`stripe.customers.retrieve` etc.). -/
  | stripeLookupError (id : String)
deriving Repr, DecidableEq

/-- WooCommerce billing sub-record as built by the bridge. -/
structure BillingInfo where
  first_name : String
  last_name : String
  email : String
  phone : String
  address_1 : String
  address_2 : String
  city : String
  state : String
  postcode : String
  country : String
deriving Repr, DecidableEq

/-- WooCommerce shipping sub-record as built by the bridge. -/
structure ShippingInfo where
  first_name : String
  last_name : String
  address_1 : String
  address_2 : String
  city : String
  state : String
  postcode : String
  country : String
deriving Repr, DecidableEq

/-- Payload of a `POST customers` call (lines 225-251). -/
structure CustomerData where
  email : String
  first_name : String
  last_name : String
  billing : BillingInfo
  shipping : ShippingInfo
deriving Repr, DecidableEq

/-- A line item of a WooCommerce order as posted by the bridge:
only `product_id` and `quantity`. -/
structure WooLineItem where
  product_id : Nat
  quantity : Nat
deriving Repr, DecidableEq

/-- Payload of a `POST orders` call.  The checkout path sends billing
and shipping and no explicit status; the renewal path sends
`status: 'processing'` and no billing/shipping, hence the `Option`s. -/
structure OrderData where
  customer_id : Nat
  payment_method : String
  payment_method_title : String
  set_paid : Bool
  status : Option String
  billing : Option BillingInfo
  shipping : Option ShippingInfo
  line_items : List WooLineItem
  meta_data : List MetaEntry
deriving Repr, DecidableEq

/-- A WooCommerce customer record held by the back office. -/
structure WooCustomer where
  id : Nat
  data : CustomerData
deriving Repr, DecidableEq

/-- A WooCommerce order record held by the back office. -/
structure WooOrder where
  id : Nat
  data : OrderData
deriving Repr, DecidableEq

/-- A line item of an existing WooCommerce subscription.  It carries
more than the two fields the renewal order copies, so that "restricted
to product id and quantity" is a real restriction. -/
structure WooSubLineItem where
  product_id : Nat
  quantity : Nat
  name : String
  total : String
deriving Repr, DecidableEq

/-- A WooCommerce subscription record held by the back office.
`date_created` is the creation timestamp as a number. -/
structure WooSubscription where
  id : Nat
  customer_id : Nat
  status : String
  date_created : Nat
  line_items : List WooSubLineItem
  meta_data : List MetaEntry
deriving Repr, DecidableEq

/-- The state of the WooCommerce back office (the external system of
record).  `nextId` is the id the store assigns to the next created
record. -/
structure WooState where
  customers : List WooCustomer
  orders : List WooOrder
  subscriptions : List WooSubscription
  nextId : Nat
deriving Repr, DecidableEq

/-- One outbound write call (POST/PUT) against the back office.
Read calls (GET) are not writes and are not recorded. -/
inductive WooWrite where
  | postCustomer (data : CustomerData)
  | postOrder (data : OrderData)
  | putOrderMeta (orderId : Nat) (meta : List MetaEntry)
  | putSubscriptionStatus (subId : Nat) (status : String)
deriving Repr, DecidableEq

/-- Result of running one bridge function: the back-office state after
it returns or throws, the write calls it issued (in order), and its
return value or the error it threw.  Writes issued before a throw are
kept, as they are in the real system. -/
structure TraceResult (α : Type) where
  state : WooState
  writes : List WooWrite
  result : Except IntegrationError α
deriving Repr

/-- `GET customers?email=...`: the store returns all customers with
that email, in store order. -/
def wooGetCustomersByEmail (email : String) (st : WooState) : List WooCustomer :=
  st.customers.filter (fun c => c.data.email = email)

/-- `POST customers`: the store creates the record with a fresh id and
returns it. -/
def wooPostCustomer (d : CustomerData) (st : WooState) : WooCustomer × WooState :=
  let c : WooCustomer := { id := st.nextId, data := d }
  (c, { st with customers := st.customers ++ [c], nextId := st.nextId + 1 })

/-- `POST orders`: the store creates the record with a fresh id and
returns it (echoing the posted data). -/
def wooPostOrder (d : OrderData) (st : WooState) : WooOrder × WooState :=
  let o : WooOrder := { id := st.nextId, data := d }
  (o, { st with orders := st.orders ++ [o], nextId := st.nextId + 1 })

/-- `PUT orders/<id>` with a `meta_data` body: the store replaces that
order's metadata with the supplied list. -/
def wooPutOrderMeta (orderId : Nat) (meta : List MetaEntry) (st : WooState) : WooState :=
  { st with
    orders := st.orders.map (fun o =>
      if o.id = orderId then { o with data := { o.data with meta_data := meta } } else o) }

/-- `PUT subscriptions/<id>` with a `status` body. -/
def wooPutSubscriptionStatus (subId : Nat) (status : String) (st : WooState) : WooState :=
  { st with
    subscriptions := st.subscriptions.map (fun s =>
      if s.id = subId then { s with status := status } else s) }

/-- `GET subscriptions?customer=<id>`: all of the customer's
subscriptions, in store order. -/
def wooGetSubscriptionsByCustomer (customerId : Nat) (st : WooState) : List WooSubscription :=
  st.subscriptions.filter (fun s => s.customer_id = customerId)

/-- The Stripe side, read-only: customers, subscriptions, and the line
items of each checkout session (keyed by session id). -/
structure StripeState where
  customers : List StripeCustomer
  subscriptions : List StripeSubscription
  sessionLineItems : List (String × List StripeLineItem)
deriving Repr, DecidableEq

/-- `stripe.customers.retrieve(id)`; a missing id rejects. -/
def stripeRetrieveCustomer (cid : String) (ss : StripeState) :
    Except IntegrationError StripeCustomer :=
  match ss.customers.find? (fun c => c.id = cid) with
  | some c => .ok c
  | none => .error (.stripeLookupError cid)

/-- `stripe.subscriptions.retrieve(id)`; a missing or null id rejects. -/
def stripeRetrieveSubscription (sid : Option String) (ss : StripeState) :
    Except IntegrationError StripeSubscription :=
  match sid with
  | none => .error (.stripeLookupError "")
  | some s =>
    match ss.subscriptions.find? (fun c => c.id = s) with
    | some c => .ok c
    | none => .error (.stripeLookupError s)

/-- `stripe.checkout.sessions.listLineItems(id)`. -/
def stripeListLineItems (sessionId : String) (ss : StripeState) : List StripeLineItem :=
  match ss.sessionLineItems.find? (fun p => p.1 = sessionId) with
  | some p => p.2
  | none => []

/-- `getOrCreateWooCustomer`'s `customerData` object (lines 225-251).
Billing and shipping repeat the same field computations. -/
def buildCustomerData (cd : CustomerDetails) : CustomerData :=
  { email := optStr cd.email
    first_name := nameFirst cd.name
    last_name := nameLast cd.name
    billing :=
      { first_name := nameFirst cd.name
        last_name := nameLast cd.name
        email := optStr cd.email
        phone := optStr cd.phone
        address_1 := addrField cd.address (fun a => a.line1)
        address_2 := addrField cd.address (fun a => a.line2)
        city := addrField cd.address (fun a => a.city)
        state := addrField cd.address (fun a => a.state)
        postcode := addrField cd.address (fun a => a.postal_code)
        country := addrField cd.address (fun a => a.country) }
    shipping :=
      { first_name := nameFirst cd.name
        last_name := nameLast cd.name
        address_1 := addrField cd.address (fun a => a.line1)
        address_2 := addrField cd.address (fun a => a.line2)
        city := addrField cd.address (fun a => a.city)
        state := addrField cd.address (fun a => a.state)
        postcode := addrField cd.address (fun a => a.postal_code)
        country := addrField cd.address (fun a => a.country) } }

/-- `getOrCreateWooCustomer` (lines 210-263).  The JS guard
`!customerDetails || !customerDetails.email` collapses to the
empty-email test: a `null` details object never reaches a field
access past the guard. -/
def getOrCreateWooCustomer (cd : CustomerDetails) (st : WooState) :
    TraceResult WooCustomer :=
  if optStr cd.email = "" then
    { state := st, writes := [], result := .error .validationError }
  else
    match wooGetCustomersByEmail (optStr cd.email) st with
    | c :: _ => { state := st, writes := [], result := .ok c }
    | [] =>
      let data := buildCustomerData cd
      let (c, st1) := wooPostCustomer data st
      { state := st1, writes := [.postCustomer data], result := .ok c }

/-- `findWooCustomerByEmail` (lines 265-278): first match or `null`. -/
def findWooCustomerByEmail (email : String) (st : WooState) : Option WooCustomer :=
  (wooGetCustomersByEmail email st).head?

/-- The per-item body of `createWooOrder`'s `Promise.all` map
(lines 282-293). -/
def mapLineItem (item : StripeLineItem) : Except IntegrationError WooLineItem :=
  match productMapping item.priceId with
  | none => .error (.unmappedProductError item.priceId)
  | some m => .ok { product_id := m.productId, quantity := item.quantity }

/-- `Promise.all(lineItems.data.map(...))`: all items resolved in
order; the first unmapped item (in array order) is the rejection the
awaited `Promise.all` throws. -/
def mapLineItems : List StripeLineItem → Except IntegrationError (List WooLineItem)
  | [] => .ok []
  | item :: rest =>
    match mapLineItem item with
    | .error e => .error e
    | .ok w =>
      match mapLineItems rest with
      | .error e => .error e
      | .ok ws => .ok (w :: ws)

/-- `lineItems.data.some(item => mapping && mapping.isSubscription)`
(lines 337-340). -/
def hasSubscriptionItem (lineItems : List StripeLineItem) : Bool :=
  lineItems.any (fun item =>
    match productMapping item.priceId with
    | some m => m.isSubscription
    | none => false)

/-- The `orderData` object of `createWooOrder` (lines 295-329). -/
def buildOrderData (session : StripeSession) (customerId : Nat)
    (wooLineItems : List WooLineItem) : OrderData :=
  let cd := session.customer_details
  { customer_id := customerId
    payment_method := "stripe"
    payment_method_title := "Stripe"
    set_paid := true
    status := none
    billing := some
      { first_name := nameFirst cd.name
        last_name := nameLast cd.name
        email := optStr cd.email
        phone := optStr cd.phone
        address_1 := addrField cd.address (fun a => a.line1)
        address_2 := addrField cd.address (fun a => a.line2)
        city := addrField cd.address (fun a => a.city)
        state := addrField cd.address (fun a => a.state)
        postcode := addrField cd.address (fun a => a.postal_code)
        country := addrField cd.address (fun a => a.country) }
    shipping := some
      { first_name := nameFirst cd.name
        last_name := nameLast cd.name
        address_1 := addrField cd.address (fun a => a.line1)
        address_2 := addrField cd.address (fun a => a.line2)
        city := addrField cd.address (fun a => a.city)
        state := addrField cd.address (fun a => a.state)
        postcode := addrField cd.address (fun a => a.postal_code)
        country := addrField cd.address (fun a => a.country) }
    line_items := wooLineItems
    meta_data := [{ key := "stripe_checkout_id", value := session.id }] }

/-- `createWooOrder` (lines 280-367).  Note the JS returns
`response.data` of the POST — the record as created, before the
metadata amend — even when the PUT ran. -/
def createWooOrder (session : StripeSession) (lineItems : List StripeLineItem)
    (customerId : Nat) (st : WooState) : TraceResult WooOrder :=
  match mapLineItems lineItems with
  | .error e => { state := st, writes := [], result := .error e }
  | .ok wooLineItems =>
    let orderData := buildOrderData session customerId wooLineItems
    let (order, st1) := wooPostOrder orderData st
    match hasSubscriptionItem lineItems, session.subscription with
    | true, some subId =>
      let newMeta := order.data.meta_data ++
        [{ key := "stripe_subscription_id", value := subId }]
      let st2 := wooPutOrderMeta order.id newMeta st1
      { state := st2
        writes := [.postOrder orderData, .putOrderMeta order.id newMeta]
        result := .ok order }
    | true, none =>
      { state := st1, writes := [.postOrder orderData], result := .ok order }
    | false, _ =>
      { state := st1, writes := [.postOrder orderData], result := .ok order }

/-- `sub.meta_data.some(meta => meta.key === 'stripe_subscription_id'
&& meta.value === stripeSubscriptionId)` (lines 437-440). -/
def hasStripeSubTag (stripeSubscriptionId : String) (sub : WooSubscription) : Bool :=
  sub.meta_data.any (fun m =>
    m.key = "stripe_subscription_id" && m.value = stripeSubscriptionId)

/-- The fallback's sort comparator: `(a, b) => new Date(b.date_created)
- new Date(a.date_created)` orders by creation timestamp descending;
JS `Array.prototype.sort` is stable, as is `List.mergeSort`. -/
def moreRecent (a b : WooSubscription) : Bool :=
  b.date_created ≤ a.date_created

/-- `findWooSubscription` (lines 427-473): first the metadata-tag
match (array order), then the most recently created `active`
subscription, else `null`.  The JS wraps both steps in a
`data.length > 0` test, which changes nothing on an empty list. -/
def findWooSubscription (stripeSubscriptionId : String) (customerId : Nat)
    (st : WooState) : Option WooSubscription :=
  let subs := wooGetSubscriptionsByCustomer customerId st
  match subs.find? (hasStripeSubTag stripeSubscriptionId) with
  | some s => some s
  | none =>
    let activeSubscriptions :=
      (subs.filter (fun s => s.status = "active")).mergeSort moreRecent
    activeSubscriptions.head?

/-- `updateWooSubscriptionStatus` (lines 475-509): translate the
incoming status through `statusMap` (default `on-hold`) and PUT it. -/
def updateWooSubscriptionStatus (subscriptionId : Nat) (stripeStatus : String)
    (st : WooState) : WooState × List WooWrite :=
  let wooStatus := translateStripeStatus stripeStatus
  (wooPutSubscriptionStatus subscriptionId wooStatus st,
   [.putSubscriptionStatus subscriptionId wooStatus])

/-- The `renewalOrderData` object of `processSubscriptionRenewal`
(lines 380-404): the matched subscription's line items restricted to
`product_id` and `quantity`. -/
def buildRenewalOrderData (invoice : StripeInvoice)
    (subscription : StripeSubscription) (customerId : Nat)
    (wooSub : WooSubscription) : OrderData :=
  { customer_id := customerId
    payment_method := "stripe"
    payment_method_title := "Stripe"
    set_paid := true
    status := some "processing"
    billing := none
    shipping := none
    line_items := wooSub.line_items.map (fun item =>
      { product_id := item.product_id, quantity := item.quantity })
    meta_data :=
      [{ key := "stripe_invoice_id", value := invoice.id },
       { key := "stripe_subscription_id", value := subscription.id },
       { key := "is_renewal", value := "true" }] }

/-- `processSubscriptionRenewal` (lines 369-425).  An unmatched
subscription returns without error and without writes; a matched one
posts the renewal order and then always writes status `active`. -/
def processSubscriptionRenewal (invoice : StripeInvoice)
    (subscription : StripeSubscription) (customerId : Nat) (st : WooState) :
    TraceResult (Option WooOrder) :=
  match findWooSubscription subscription.id customerId st with
  | none => { state := st, writes := [], result := .ok none }
  | some wooSub =>
    let renewalOrderData := buildRenewalOrderData invoice subscription customerId wooSub
    let (order, st1) := wooPostOrder renewalOrderData st
    let (st2, w2) := updateWooSubscriptionStatus wooSub.id "active" st1
    { state := st2
      writes := .postOrder renewalOrderData :: w2
      result := .ok (some order) }

/-- `handleCheckoutCompleted` (lines 92-110). -/
def handleCheckoutCompleted (session : StripeSession) (ss : StripeState)
    (st : WooState) : TraceResult Unit :=
  let lineItems := stripeListLineItems session.id ss
  let r1 := getOrCreateWooCustomer session.customer_details st
  match r1.result with
  | .error e => { state := r1.state, writes := r1.writes, result := .error e }
  | .ok customer =>
    let r2 := createWooOrder session lineItems customer.id r1.state
    { state := r2.state
      writes := r1.writes ++ r2.writes
      result := r2.result.map (fun _ => ()) }

/-- `handleInvoicePaid` (lines 112-136): Stripe reads, then the woo
customer by email — absence there throws — then the renewal. -/
def handleInvoicePaid (invoice : StripeInvoice) (ss : StripeState)
    (st : WooState) : TraceResult Unit :=
  match stripeRetrieveSubscription invoice.subscription ss with
  | .error e => { state := st, writes := [], result := .error e }
  | .ok subscription =>
    match stripeRetrieveCustomer invoice.customer ss with
    | .error e => { state := st, writes := [], result := .error e }
    | .ok stripeCustomer =>
      match findWooCustomerByEmail stripeCustomer.email st with
      | none =>
        { state := st, writes := []
          result := .error (.customerNotFoundError stripeCustomer.email) }
      | some customer =>
        let r := processSubscriptionRenewal invoice subscription customer.id st
        { state := r.state, writes := r.writes
          result := r.result.map (fun _ => ()) }

/-- `handleSubscriptionUpdated` (lines 138-172): customer absence
throws; subscription absence returns quietly; otherwise the status is
translated and written. -/
def handleSubscriptionUpdated (subscription : StripeSubscription)
    (ss : StripeState) (st : WooState) : TraceResult Unit :=
  match stripeRetrieveCustomer subscription.customer ss with
  | .error e => { state := st, writes := [], result := .error e }
  | .ok stripeCustomer =>
    match findWooCustomerByEmail stripeCustomer.email st with
    | none =>
      { state := st, writes := []
        result := .error (.customerNotFoundError stripeCustomer.email) }
    | some customer =>
      match findWooSubscription subscription.id customer.id st with
      | none => { state := st, writes := [], result := .ok () }
      | some wooSub =>
        let (st1, w) := updateWooSubscriptionStatus wooSub.id subscription.status st
        { state := st1, writes := w, result := .ok () }

/-- `handleSubscriptionCancelled` (lines 174-208): as above, but with
the literal string `'cancelled'` passed as the status to translate. -/
def handleSubscriptionCancelled (subscription : StripeSubscription)
    (ss : StripeState) (st : WooState) : TraceResult Unit :=
  match stripeRetrieveCustomer subscription.customer ss with
  | .error e => { state := st, writes := [], result := .error e }
  | .ok stripeCustomer =>
    match findWooCustomerByEmail stripeCustomer.email st with
    | none =>
      { state := st, writes := []
        result := .error (.customerNotFoundError stripeCustomer.email) }
    | some customer =>
      match findWooSubscription subscription.id customer.id st with
      | none => { state := st, writes := [], result := .ok () }
      | some wooSub =>
        let (st1, w) := updateWooSubscriptionStatus wooSub.id "cancelled" st
        { state := st1, writes := w, result := .ok () }

/-- An inbound webhook event after signature verification, one
constructor per dispatched `event.type` (lines 67-82). -/
inductive StripeEvent where
  | checkoutCompleted (session : StripeSession)
  | invoicePaid (invoice : StripeInvoice)
  | subscriptionUpdated (subscription : StripeSubscription)
  | subscriptionDeleted (subscription : StripeSubscription)
  | other (eventType : String)
deriving Repr, DecidableEq

/-- The HTTP status the dispatcher answers with. -/
structure WebhookResponse where
  status : Nat
deriving Repr, DecidableEq

/-- The post-verification body of the webhook endpoint (lines 66-88):
route by event type, 200 on success and on unknown types, 500 when the
handler throws.  Writes issued before the throw persist. -/
def dispatchEvent (event : StripeEvent) (ss : StripeState) (st : WooState) :
    WebhookResponse × WooState × List WooWrite :=
  let r : TraceResult Unit :=
    match event with
    | .checkoutCompleted session => handleCheckoutCompleted session ss st
    | .invoicePaid invoice => handleInvoicePaid invoice ss st
    | .subscriptionUpdated s => handleSubscriptionUpdated s ss st
    | .subscriptionDeleted s => handleSubscriptionCancelled s ss st
    | .other _ => { state := st, writes := [], result := .ok () }
  match r.result with
  | .ok _ => ({ status := 200 }, r.state, r.writes)
  | .error _ => ({ status := 500 }, r.state, r.writes)

/-! ### Concrete fixtures used by witnesses and counterexamples -/

/-- Checkout contact details with an email present. -/
def exDetails : CustomerDetails :=
  { name := some "Ada Lovelace", email := some "a@example.com",
    phone := none, address := none }

/-- A checkout session for one subscription product, carrying a
subscription id. -/
def exSession : StripeSession :=
  { id := "cs_1", customer_details := exDetails, subscription := some "sub_1" }

/-- One line item on the mapped subscription price. -/
def exItems : List StripeLineItem := [{ priceId := "price_123456789", quantity := 2 }]

/-- An existing WooCommerce customer for `a@example.com`. -/
def exWooCustomer : WooCustomer := { id := 5, data := buildCustomerData exDetails }

/-- An active WooCommerce subscription tagged with `sub_1`. -/
def exSubTagged : WooSubscription :=
  { id := 7, customer_id := 5, status := "active", date_created := 100,
    line_items := [{ product_id := 123, quantity := 2, name := "Monthly Box", total := "20.00" }],
    meta_data := [{ key := "stripe_subscription_id", value := "sub_1" }] }

/-- An on-hold WooCommerce subscription tagged with `sub_1`. -/
def exSubTaggedHold : WooSubscription :=
  { id := 9, customer_id := 5, status := "on-hold", date_created := 50,
    line_items := [{ product_id := 123, quantity := 1, name := "Monthly Box", total := "10.00" }],
    meta_data := [{ key := "stripe_subscription_id", value := "sub_1" }] }

/-- An active, untagged WooCommerce subscription. -/
def exSubActive : WooSubscription :=
  { id := 8, customer_id := 5, status := "active", date_created := 200,
    line_items := [{ product_id := 456, quantity := 1, name := "One-off", total := "5.00" }],
    meta_data := [] }

/-- The Stripe customer behind the events. -/
def exStripeCustomer : StripeCustomer := { id := "cus_1", email := "a@example.com" }

/-- Stripe state holding just that customer. -/
def exStripeState : StripeState :=
  { customers := [exStripeCustomer], subscriptions := [], sessionLineItems := [] }

/-- A `customer.subscription.deleted` event payload for `sub_1`. -/
def exCancelEvent : StripeSubscription :=
  { id := "sub_1", status := "canceled", customer := "cus_1" }

/-- A Stripe subscription whose own status is `past_due`. -/
def exRenewalSub : StripeSubscription :=
  { id := "sub_1", status := "past_due", customer := "cus_1" }

/-- A paid invoice for `sub_1` whose own status field is `open`. -/
def exRenewalInvoice : StripeInvoice :=
  { id := "in_1", status := "open", subscription := some "sub_1", customer := "cus_1" }

/-- Back office with the customer and the tagged active subscription. -/
def exWooState : WooState :=
  { customers := [exWooCustomer], orders := [], subscriptions := [exSubTagged], nextId := 20 }

/-- Back office with the customer and no subscriptions or orders. -/
def exWooStateOrders : WooState :=
  { customers := [exWooCustomer], orders := [], subscriptions := [], nextId := 10 }

/-- An empty back office. -/
def exEmptyWoo : WooState :=
  { customers := [], orders := [], subscriptions := [], nextId := 1 }

/-- Back office where an untagged active subscription precedes an
on-hold tagged one in store order. -/
def exWooStateTwoSubs : WooState :=
  { customers := [exWooCustomer], orders := [],
    subscriptions := [exSubActive, exSubTaggedHold], nextId := 30 }

/-- A line item whose price id is not in the mapping table. -/
def exBadItems : List StripeLineItem := [{ priceId := "price_unknown", quantity := 1 }]

/-! ### Claims -/

/-- Mapping the line items succeeds when every price id is in the
product mapping table. -/
theorem mapLineItems_ok_of_mapped {l : List StripeLineItem}
    (h : ∀ item ∈ l, (productMapping item.priceId).isSome) :
    ∃ ws, mapLineItems l = .ok ws := by
  induction l with
  | nil => exact ⟨[], rfl⟩
  | cons a rest ih =>
    obtain ⟨m, hm⟩ := Option.isSome_iff_exists.mp (h a (List.mem_cons_self a rest))
    obtain ⟨ws, hws⟩ := ih (fun i hi => h i (List.mem_cons_of_mem a hi))
    refine ⟨{ product_id := m.productId, quantity := a.quantity } :: ws, ?_⟩
    simp [mapLineItems, mapLineItem, hm, hws]

/-- Mapping the line items rejects with the unmapped-product error of
some unmapped item when one exists. -/
theorem mapLineItems_error_of_unmapped {l : List StripeLineItem}
    (h : ∃ item ∈ l, productMapping item.priceId = none) :
    ∃ item ∈ l, productMapping item.priceId = none ∧
      mapLineItems l = .error (.unmappedProductError item.priceId) := by
  induction l with
  | nil => simp at h
  | cons a rest ih =>
    rcases hma : productMapping a.priceId with _ | m
    · exact ⟨a, List.mem_cons_self a rest, hma, by simp [mapLineItems, mapLineItem, hma]⟩
    · obtain ⟨item, hmem, hnone⟩ := h
      rcases List.mem_cons.mp hmem with h1 | h1
      · subst h1
        rw [hma] at hnone
        simp at hnone
      · obtain ⟨item', hm', hn', he'⟩ := ih ⟨item, h1, hnone⟩
        refine ⟨item', List.mem_cons_of_mem a hm', hn', ?_⟩
        simp [mapLineItems, mapLineItem, hma, he']

/-- C4: a checkout session with any line item whose price id is absent
from the product mapping table makes the order builder fail with the
unmapped-product error, with zero write calls and the back office left
exactly as it was. -/
theorem createWooOrder_unmapped_aborts (session : StripeSession)
    (lineItems : List StripeLineItem) (customerId : Nat) (st : WooState)
    (h : ∃ item ∈ lineItems, productMapping item.priceId = none) :
    (∃ priceId,
      (createWooOrder session lineItems customerId st).result =
        .error (.unmappedProductError priceId) ∧
      ∃ item ∈ lineItems, item.priceId = priceId ∧ productMapping priceId = none) ∧
    (createWooOrder session lineItems customerId st).writes = [] ∧
    (createWooOrder session lineItems customerId st).state = st := by
  obtain ⟨item, hmem, hnone, herr⟩ := mapLineItems_error_of_unmapped h
  refine ⟨⟨item.priceId, ?_, item, hmem, rfl, hnone⟩, ?_, ?_⟩ <;>
    simp [createWooOrder, herr]

/-- C4 witness: a concrete unmapped price id aborts with no writes. -/
theorem createWooOrder_unmapped_aborts_witness :
    (createWooOrder exSession exBadItems 5 exWooStateOrders).writes = [] ∧
    (createWooOrder exSession exBadItems 5 exWooStateOrders).state = exWooStateOrders :=
  (createWooOrder_unmapped_aborts exSession exBadItems 5 exWooStateOrders
    ⟨{ priceId := "price_unknown", quantity := 1 }, by decide, by decide⟩).2

/-- C8: the customer reconciler fails with the validation error exactly
when the contact details lack an email; with an email and an existing
match it returns the first match (store order) and writes nothing;
with no match it issues exactly one create write and returns the
created record. -/
theorem getOrCreateWooCustomer_spec (cd : CustomerDetails) (st : WooState) :
    ((getOrCreateWooCustomer cd st).result = .error .validationError ↔
      optStr cd.email = "") ∧
    (∀ c rest, wooGetCustomersByEmail (optStr cd.email) st = c :: rest →
      optStr cd.email ≠ "" →
      (getOrCreateWooCustomer cd st).result = .ok c ∧
      (getOrCreateWooCustomer cd st).writes = []) ∧
    (wooGetCustomersByEmail (optStr cd.email) st = [] → optStr cd.email ≠ "" →
      (getOrCreateWooCustomer cd st).writes = [.postCustomer (buildCustomerData cd)] ∧
      (getOrCreateWooCustomer cd st).result =
        .ok { id := st.nextId, data := buildCustomerData cd }) := by
  refine ⟨⟨fun hres => ?_, fun he => by simp [getOrCreateWooCustomer, he]⟩, ?_, ?_⟩
  · by_contra he
    rcases hq : wooGetCustomersByEmail (optStr cd.email) st with _ | ⟨c, rest⟩ <;>
      simp [getOrCreateWooCustomer, he, hq, wooPostCustomer] at hres
  · intro c rest hq he
    constructor <;> simp [getOrCreateWooCustomer, he, hq]
  · intro hq he
    constructor <;> simp [getOrCreateWooCustomer, he, hq, wooPostCustomer]

/-- C8 witness: creating a customer in an empty back office issues
exactly the one create write and returns the created record. -/
theorem getOrCreateWooCustomer_spec_witness :
    (getOrCreateWooCustomer exDetails exEmptyWoo).writes =
      [.postCustomer (buildCustomerData exDetails)] ∧
    (getOrCreateWooCustomer exDetails exEmptyWoo).result =
      .ok { id := 1, data := buildCustomerData exDetails } :=
  (getOrCreateWooCustomer_spec exDetails exEmptyWoo).2.2 rfl (by decide)

/-- C10: in both the subscription-updated and subscription-deleted
handlers, a missing back-office customer for the Stripe customer's
email is a thrown customer-not-found error and the dispatcher answers
500, while a missing back-office subscription (customer present) is a
soft skip answered 200. -/
theorem subscriptionHandlers_customer_absence_is_error
    (subscription : StripeSubscription) (ss : StripeState) (st : WooState)
    (c : StripeCustomer)
    (hc : stripeRetrieveCustomer subscription.customer ss = .ok c) :
    (findWooCustomerByEmail c.email st = none →
      (handleSubscriptionUpdated subscription ss st).result =
        .error (.customerNotFoundError c.email) ∧
      (handleSubscriptionCancelled subscription ss st).result =
        .error (.customerNotFoundError c.email) ∧
      (dispatchEvent (.subscriptionUpdated subscription) ss st).1.status = 500 ∧
      (dispatchEvent (.subscriptionDeleted subscription) ss st).1.status = 500) ∧
    (∀ wc, findWooCustomerByEmail c.email st = some wc →
      findWooSubscription subscription.id wc.id st = none →
      (handleSubscriptionUpdated subscription ss st).result = .ok () ∧
      (handleSubscriptionCancelled subscription ss st).result = .ok () ∧
      (dispatchEvent (.subscriptionUpdated subscription) ss st).1.status = 200 ∧
      (dispatchEvent (.subscriptionDeleted subscription) ss st).1.status = 200) := by
  constructor
  · intro hn
    refine ⟨?_, ?_, ?_, ?_⟩ <;>
      simp [handleSubscriptionUpdated, handleSubscriptionCancelled, dispatchEvent, hc, hn]
  · intro wc hw hs
    refine ⟨?_, ?_, ?_, ?_⟩ <;>
      simp [handleSubscriptionUpdated, handleSubscriptionCancelled, dispatchEvent,
        hc, hw, hs]

/-- C10 witness: with no back-office customers, both subscription
events are answered 500. -/
theorem subscriptionHandlers_customer_absence_is_error_witness :
    (dispatchEvent (.subscriptionUpdated exCancelEvent) exStripeState exEmptyWoo).1.status = 500 ∧
    (dispatchEvent (.subscriptionDeleted exCancelEvent) exStripeState exEmptyWoo).1.status = 500 :=
  ⟨((subscriptionHandlers_customer_absence_is_error exCancelEvent exStripeState exEmptyWoo
      exStripeCustomer rfl).1 rfl).2.2.1,
   ((subscriptionHandlers_customer_absence_is_error exCancelEvent exStripeState exEmptyWoo
      exStripeCustomer rfl).1 rfl).2.2.2⟩

/-- C1: the status translator maps each of the eight statuses of the
fixed table to exactly the tabulated back-office value, and every
other status to the default `on-hold`; being a total function, it
never fails. -/
theorem translateStripeStatus_table_and_default :
    (translateStripeStatus "active" = "active" ∧
     translateStripeStatus "past_due" = "on-hold" ∧
     translateStripeStatus "unpaid" = "on-hold" ∧
     translateStripeStatus "canceled" = "cancelled" ∧
     translateStripeStatus "incomplete" = "pending" ∧
     translateStripeStatus "incomplete_expired" = "cancelled" ∧
     translateStripeStatus "trialing" = "active" ∧
     translateStripeStatus "paused" = "on-hold") ∧
    ∀ s : String,
      s ∉ (["active", "past_due", "unpaid", "canceled", "incomplete",
            "incomplete_expired", "trialing", "paused"] : List String) →
      translateStripeStatus s = "on-hold" := by
  refine ⟨by decide, ?_⟩
  intro s hs
  simp only [List.mem_cons, List.not_mem_nil, or_false, not_or] at hs
  obtain ⟨h1, h2, h3, h4, h5, h6, h7, h8⟩ := hs
  simp [translateStripeStatus, statusMap, h1, h2, h3, h4, h5, h6, h7, h8]

/-- C1 witness: an unrecognized status evaluates to `on-hold`. -/
theorem translateStripeStatus_table_and_default_witness :
    translateStripeStatus "deleted" = "on-hold" :=
  translateStripeStatus_table_and_default.2 "deleted" (by decide)

/-- C2 evidence: on a matched `customer.subscription.deleted` event the
handler passes the literal `'cancelled'` to the translator, but the
table's key is `'canceled'`, so the status actually written is the
default `on-hold`, not `cancelled`. -/
theorem handleSubscriptionCancelled_writes_on_hold :
    translateStripeStatus "cancelled" = "on-hold" ∧
    (handleSubscriptionCancelled exCancelEvent exStripeState exWooState).writes =
      [.putSubscriptionStatus 7 "on-hold"] ∧
    ((handleSubscriptionCancelled exCancelEvent exStripeState exWooState).state.subscriptions.map
      (fun s => s.status)) = ["on-hold"] := by
  decide

/-- C6: when the locator finds no matching subscription for a paid
invoice, the renewal processor issues zero writes, leaves the back
office untouched and returns without error. -/
theorem processSubscriptionRenewal_absent_skips (invoice : StripeInvoice)
    (subscription : StripeSubscription) (customerId : Nat) (st : WooState)
    (h : findWooSubscription subscription.id customerId st = none) :
    (processSubscriptionRenewal invoice subscription customerId st).writes = [] ∧
    (processSubscriptionRenewal invoice subscription customerId st).result = .ok none ∧
    (processSubscriptionRenewal invoice subscription customerId st).state = st := by
  refine ⟨?_, ?_, ?_⟩ <;> simp [processSubscriptionRenewal, h]

/-- C6 witness: a concrete skipped renewal. -/
theorem processSubscriptionRenewal_absent_skips_witness :
    (processSubscriptionRenewal exRenewalInvoice exRenewalSub 5 exEmptyWoo).writes = [] ∧
    (processSubscriptionRenewal exRenewalInvoice exRenewalSub 5 exEmptyWoo).result = .ok none :=
  ⟨(processSubscriptionRenewal_absent_skips exRenewalInvoice exRenewalSub 5 exEmptyWoo
      (by simp [findWooSubscription, wooGetSubscriptionsByCustomer, exEmptyWoo])).1,
   (processSubscriptionRenewal_absent_skips exRenewalInvoice exRenewalSub 5 exEmptyWoo
      (by simp [findWooSubscription, wooGetSubscriptionsByCustomer, exEmptyWoo])).2.1⟩

/-- C7: on a matched renewal the processor posts one order whose line
items are exactly the matched subscription's line items restricted to
product id and quantity, and then writes status `active` to that
subscription — for every invoice, whatever its own status field. -/
theorem processSubscriptionRenewal_matched_active (invoice : StripeInvoice)
    (subscription : StripeSubscription) (customerId : Nat) (st : WooState)
    (wooSub : WooSubscription)
    (h : findWooSubscription subscription.id customerId st = some wooSub) :
    (processSubscriptionRenewal invoice subscription customerId st).writes =
      [.postOrder (buildRenewalOrderData invoice subscription customerId wooSub),
       .putSubscriptionStatus wooSub.id "active"] ∧
    (buildRenewalOrderData invoice subscription customerId wooSub).line_items =
      wooSub.line_items.map (fun item =>
        { product_id := item.product_id, quantity := item.quantity }) ∧
    (processSubscriptionRenewal invoice subscription customerId st).state.subscriptions =
      st.subscriptions.map (fun s =>
        if s.id = wooSub.id then { s with status := "active" } else s) := by
  refine ⟨?_, rfl, ?_⟩ <;>
    simp [processSubscriptionRenewal, h, updateWooSubscriptionStatus,
      translateStripeStatus, statusMap, wooPostOrder, wooPutSubscriptionStatus]

/-- C7 witness: a concrete matched renewal on an `open` invoice still
writes status `active` and copies the subscription's line items. -/
theorem processSubscriptionRenewal_matched_active_witness :
    (processSubscriptionRenewal exRenewalInvoice exRenewalSub 5 exWooState).writes =
      [.postOrder (buildRenewalOrderData exRenewalInvoice exRenewalSub 5 exSubTagged),
       .putSubscriptionStatus 7 "active"] :=
  (processSubscriptionRenewal_matched_active exRenewalInvoice exRenewalSub 5 exWooState
    exSubTagged rfl).1

/-- C9: the metadata-tag match has absolute precedence in the locator
and ignores status: when the first tagged subscription in store order
is not active and another, untagged one is active, the tagged one is
still returned. -/
theorem findWooSubscription_tag_precedence (sid : String) (cid : Nat) (st : WooState)
    (s : WooSubscription)
    (hfind : (wooGetSubscriptionsByCustomer cid st).find? (hasStripeSubTag sid) = some s)
    (_hstatus : s.status ≠ "active")
    (_hother : ∃ t ∈ wooGetSubscriptionsByCustomer cid st,
      t.status = "active" ∧ hasStripeSubTag sid t = false) :
    findWooSubscription sid cid st = some s := by
  simp [findWooSubscription, hfind]

/-- C9 witness: an untagged active subscription listed first does not
shadow the on-hold tagged one. -/
theorem findWooSubscription_tag_precedence_witness :
    findWooSubscription "sub_1" 5 exWooStateTwoSubs = some exSubTaggedHold :=
  findWooSubscription_tag_precedence "sub_1" 5 exWooStateTwoSubs exSubTaggedHold
    (by decide) (by decide) ⟨exSubActive, by decide, by decide, by decide⟩

/-- C3 (amended): with every price id mapped, at least one
subscription-mapped item and a subscription id on the session, the
order builder issues exactly two writes — the order create carrying
the checkout-id tag, then the metadata amend adding the
subscription-id tag, which is what the back office stores — but the
record returned to the caller is the create response, carrying only
the checkout-id tag. -/
theorem createWooOrder_two_writes_stale_return (session : StripeSession)
    (lineItems : List StripeLineItem) (customerId : Nat) (st : WooState) (subId : String)
    (hmap : ∀ item ∈ lineItems, (productMapping item.priceId).isSome)
    (hsub : hasSubscriptionItem lineItems = true)
    (hsid : session.subscription = some subId) :
    (createWooOrder session lineItems customerId st).writes.length = 2 ∧
    (∃ od, (createWooOrder session lineItems customerId st).writes.head? =
        some (.postOrder od) ∧
      od.meta_data = [{ key := "stripe_checkout_id", value := session.id }]) ∧
    (createWooOrder session lineItems customerId st).writes.getLast? =
      some (.putOrderMeta st.nextId
        [{ key := "stripe_checkout_id", value := session.id },
         { key := "stripe_subscription_id", value := subId }]) ∧
    (∃ o, (createWooOrder session lineItems customerId st).result = .ok o ∧
      o.data.meta_data = [{ key := "stripe_checkout_id", value := session.id }]) ∧
    (∃ stored, (createWooOrder session lineItems customerId st).state.orders.getLast? =
        some stored ∧ stored.id = st.nextId ∧
      stored.data.meta_data =
        [{ key := "stripe_checkout_id", value := session.id },
         { key := "stripe_subscription_id", value := subId }]) := by
  obtain ⟨ws, hws⟩ := mapLineItems_ok_of_mapped hmap
  refine ⟨?_, ?_, ?_, ?_, ?_⟩ <;>
    simp [createWooOrder, hws, hsub, hsid, wooPostOrder, wooPutOrderMeta,
      buildOrderData, List.getLast?_concat]

/-- C3 witness: the two-item write trace on the concrete checkout. -/
theorem createWooOrder_two_writes_stale_return_witness :
    (createWooOrder exSession exItems 5 exWooStateOrders).writes.length = 2 ∧
    (createWooOrder exSession exItems 5 exWooStateOrders).writes.getLast? =
      some (.putOrderMeta 10
        [{ key := "stripe_checkout_id", value := "cs_1" },
         { key := "stripe_subscription_id", value := "sub_1" }]) := by
  have h := createWooOrder_two_writes_stale_return exSession exItems 5 exWooStateOrders
    "sub_1" (by decide) (by decide) rfl
  exact ⟨h.1, by simpa [exSession, exWooStateOrders] using h.2.2.1⟩

/-- C3 counterexample: in the claim's own scenario the record handed
back to the caller carries only the checkout-id tag — the
subscription-id tag is missing from it, because the code returns the
create response, not the amended order. -/
theorem createWooOrder_returned_record_lacks_sub_tag :
    (createWooOrder exSession exItems 5 exWooStateOrders).writes.length = 2 ∧
    ((createWooOrder exSession exItems 5 exWooStateOrders).result.toOption.map
      (fun o => o.data.meta_data)) =
      some [{ key := "stripe_checkout_id", value := "cs_1" }] ∧
    ((createWooOrder exSession exItems 5 exWooStateOrders).result.toOption.map
      (fun o => o.data.meta_data.any (fun m => m.key = "stripe_subscription_id"))) =
      some false := by
  decide

/-- C5: the subscription locator returns the first subscription tagged
with the given id when one exists; otherwise an active subscription of
the customer with maximal creation timestamp (the most recently
created active one); otherwise `none` — absence is a value, not an
error. -/
theorem findWooSubscription_locator_spec (sid : String) (cid : Nat) (st : WooState) :
    (∀ s, (wooGetSubscriptionsByCustomer cid st).find? (hasStripeSubTag sid) = some s →
      findWooSubscription sid cid st = some s) ∧
    ((wooGetSubscriptionsByCustomer cid st).find? (hasStripeSubTag sid) = none →
      ((∀ s ∈ wooGetSubscriptionsByCustomer cid st, s.status ≠ "active") →
        findWooSubscription sid cid st = none) ∧
      (∀ s₀ ∈ wooGetSubscriptionsByCustomer cid st, s₀.status = "active" →
        ∃ s, findWooSubscription sid cid st = some s ∧
          s ∈ wooGetSubscriptionsByCustomer cid st ∧ s.status = "active" ∧
          ∀ t ∈ wooGetSubscriptionsByCustomer cid st, t.status = "active" →
            t.date_created ≤ s.date_created)) := by
  constructor
  · intro s hs
    simp [findWooSubscription, hs]
  · intro hnone
    have htrans : ∀ a b c : WooSubscription,
        moreRecent a b → moreRecent b c → moreRecent a c := by
      intro a b c
      simp only [moreRecent, decide_eq_true_eq]
      omega
    have htotal : ∀ a b : WooSubscription, moreRecent a b || moreRecent b a := by
      intro a b
      simp only [moreRecent, Bool.or_eq_true, decide_eq_true_eq]
      omega
    constructor
    · intro hnoact
      have hfilter : (wooGetSubscriptionsByCustomer cid st).filter
          (fun s => s.status = "active") = [] := by
        rw [List.filter_eq_nil_iff]
        intro a ha
        simp [hnoact a ha]
      simp [findWooSubscription, hnone, hfilter]
    · intro s₀ hmem₀ hact₀
      have hmemf : s₀ ∈ (wooGetSubscriptionsByCustomer cid st).filter
          (fun s => s.status = "active") := by
        simp [List.mem_filter, hmem₀, hact₀]
      rcases hsort : ((wooGetSubscriptionsByCustomer cid st).filter
          (fun s => s.status = "active")).mergeSort moreRecent with _ | ⟨h, tl⟩
      · exfalso
        have hms : s₀ ∈ ((wooGetSubscriptionsByCustomer cid st).filter
            (fun s => s.status = "active")).mergeSort moreRecent :=
          List.mem_mergeSort.mpr hmemf
        rw [hsort] at hms
        simp at hms
      · have hsorted := List.sorted_mergeSort htrans htotal
          ((wooGetSubscriptionsByCustomer cid st).filter (fun s => s.status = "active"))
        rw [hsort] at hsorted
        have hhead : ∀ y ∈ tl, moreRecent h y := (List.pairwise_cons.mp hsorted).1
        have hhm : h ∈ (wooGetSubscriptionsByCustomer cid st).filter
            (fun s => s.status = "active") := by
          have hmm : h ∈ ((wooGetSubscriptionsByCustomer cid st).filter
              (fun s => s.status = "active")).mergeSort moreRecent := by
            rw [hsort]
            exact List.mem_cons_self h tl
          exact List.mem_mergeSort.mp hmm
        have hhsub : h ∈ wooGetSubscriptionsByCustomer cid st := (List.mem_filter.mp hhm).1
        have hhact : h.status = "active" := by
          have hb := (List.mem_filter.mp hhm).2
          simpa using hb
        refine ⟨h, ?_, hhsub, hhact, ?_⟩
        · simp [findWooSubscription, hnone, hsort]
        · intro t htmem htact
          have htf : t ∈ (wooGetSubscriptionsByCustomer cid st).filter
              (fun s => s.status = "active") := by
            simp [List.mem_filter, htmem, htact]
          have htc : t ∈ h :: tl := by
            rw [← hsort]
            exact List.mem_mergeSort.mpr htf
          rcases List.mem_cons.mp htc with h1 | h1
          · subst h1
            exact le_refl _
          · have hr := hhead t h1
            simpa [moreRecent] using hr

/-- C5 witness: the tagged subscription is located on the concrete
back office. -/
theorem findWooSubscription_locator_spec_witness :
    findWooSubscription "sub_1" 5 exWooState = some exSubTagged :=
  (findWooSubscription_locator_spec "sub_1" 5 exWooState).1 exSubTagged (by decide)

end StripeWoo
